import Mathlib

/-!
Shallow embedding of `x/wasm/internal/keeper/relay.go`: the six IBC
lifecycle handlers (`OnOpenChannel`, `OnConnectChannel`, `OnCloseChannel`,
`OnRecvPacket`, `OnAckPacket`, `OnTimeoutPacket`) of the wasm keeper.

The handlers orchestrate external collaborators (contract resolver,
environment builder, gas meter, VM invoker, event translator, message
dispatcher).  Those collaborators live outside the file under analysis, so
they are modelled from the specification's interface descriptions; the
control flow of the six handlers themselves is translated line by line
from the source.  The host state carries, besides the gas ledger and the
event log, two instrumentation traces (`resolveTrace`, `vmTrace`) that
record each invocation of the resolver and of a VM entry point, and a log
`dispatched` of every call handed to the message dispatcher; the handlers
append to these exactly at the corresponding source call sites.
-/

set_option maxHeartbeats 1000000

namespace Nyxd

/-- `sdk.AccAddress`: opaque contract address. -/
abbrev Addr := String

/-- IBC port identifier stored in the contract metadata (`IBCPortID`). -/
abbrev PortID := String

/-- Raw byte strings (code hashes, acknowledgement payloads). -/
abbrev Bytes := List Nat

/-- Opaque follow-up message requested by a contract (`CosmosMsg`). -/
abbrev CosmosMsg := String

/-- `wasmvmtypes.IBCChannel`: opaque channel descriptor, forwarded unmodified. -/
abbrev IBCChannel := String

/-- `wasmvmtypes.IBCPacket`: opaque packet descriptor, forwarded unmodified. -/
abbrev IBCPacket := String

/-- `wasmvmtypes.IBCAcknowledgement`: opaque acknowledgement descriptor. -/
abbrev IBCAcknowledgement := String

/-- Handle to the contract's isolated storage partition (opaque here). -/
abbrev PrefixStore := Nat

/-- Host-function table handed to the VM (`cosmwasmAPI` in the source); opaque. -/
abbrev HostFunctions := Nat

/-- The constant host-function table passed to every VM invocation. -/
def cosmwasmAPI : HostFunctions := 0

/-- A key/value attribute emitted by a contract. -/
structure Attribute where
  key : String
  value : String
deriving DecidableEq, Repr

/-- Host-native event record produced by the event translator; carries the
emitting contract's address. -/
structure Event where
  ty : String
  contractAddr : Addr
  attributes : List Attribute
deriving DecidableEq, Repr

/-- `wasmvmtypes.IBCBasicResponse`: attributes plus follow-up messages. -/
structure IBCBasicResponse where
  attributes : List Attribute
  messages : List CosmosMsg
deriving DecidableEq, Repr

/-- `wasmvmtypes.IBCReceiveResponse`: acknowledgement bytes, attributes and
follow-up messages returned by the packet-receive entry point. -/
structure IBCReceiveResponse where
  acknowledgement : Bytes
  attributes : List Attribute
  messages : List CosmosMsg
deriving DecidableEq, Repr

/-- `types.ContractInfo`: per-instance metadata; the dispatcher uses only the
`IBCPortID` field. -/
structure ContractInfo where
  ibcPortID : PortID
deriving DecidableEq, Repr

/-- `types.CodeInfo`: the dispatcher uses only the `CodeHash` field. -/
structure CodeInfo where
  codeHash : Bytes
deriving DecidableEq, Repr

/-- The six VM entry points a handler can invoke. -/
inductive EntryPoint where
  | channelOpen
  | channelConnect
  | channelClose
  | packetReceive
  | packetAck
  | packetTimeout
deriving DecidableEq, Repr

/-- One invocation of the message dispatcher: the contract address and port
the messages are attributed to, and the messages themselves. -/
structure DispatchCall where
  contractAddr : Addr
  port : PortID
  messages : List CosmosMsg
deriving DecidableEq, Repr

/-- Ambient host state threaded through a handler call (`sdk.Context`):
chain snapshot data, the gas ledger, the event log, plus the dispatch log
and the two instrumentation traces described in the file header. -/
structure HostState where
  blockHeight : Nat
  blockTime : Nat
  gasLimit : Nat
  gasConsumed : Nat
  events : List Event
  dispatched : List DispatchCall
  resolveTrace : List Addr
  vmTrace : List EntryPoint
deriving DecidableEq, Repr

/-- Deterministic execution environment (`types.Env`). -/
structure Env where
  blockHeight : Nat
  blockTime : Nat
  contractAddr : Addr
deriving DecidableEq, Repr

/-- The read-only query bridge handed to the VM (`QueryHandler` literal in
the source, built from the context and the keeper's query plugins). -/
structure QueryHandler where
  Ctx : HostState
  Plugins : Nat
deriving Repr

/-- Outcome of one VM invocation: a structured result or an execution
error, in either case together with the reported gas used.  Mirrors the Go
convention that the response pointer is non-nil exactly when the error is
nil. -/
inductive VMResult (α : Type) where
  | ok (res : α) (gasUsed : Nat)
  | err (gasUsed : Nat) (msg : String)
deriving DecidableEq, Repr

/-- The gas the VM reported, whatever the outcome. -/
def VMResult.gasUsed : VMResult α → Nat
  | .ok _ g => g
  | .err g _ => g

/-- Errors a handler can return: resolution failure
(`ErrNotFound`-wrapped, from `contractInstance`), VM execution failure
(`sdkerrors.Wrap(types.ErrExecuteFailed, execErr.Error())`) carrying the
underlying VM message, or a message-dispatch failure propagated verbatim
from the dispatcher. -/
inductive Error where
  | notFound
  | execFailed (msg : String)
  | dispatchFailed (msg : String)
deriving DecidableEq, Repr

/-- Modelled from the spec: the Environment Builder produces an immutable
deterministic snapshot (block height, time, contract address)
(`types.NewEnv`, outside the file under analysis). -/
def NewEnv (ctx : HostState) (contractAddr : Addr) : Env :=
  { blockHeight := ctx.blockHeight, blockTime := ctx.blockTime,
    contractAddr := contractAddr }

/-- Modelled from the spec: `GasMeter.BudgetFor` — the gas budget for a VM
call, derived from the ambient ledger's remaining allowance
(`gasForContract`, outside the file under analysis). -/
def gasForContract (ctx : HostState) : Nat :=
  ctx.gasLimit - ctx.gasConsumed

/-- Modelled from the spec: `GasMeter.Consume` — records the VM-reported
gas against the ambient ledger; the consumed-gas counter increases by
exactly the reported amount (`consumeGas`, outside the file under
analysis). -/
def consumeGas (ctx : HostState) (gasUsed : Nat) : HostState :=
  { ctx with gasConsumed := ctx.gasConsumed + gasUsed }

/-- Modelled from the spec: the Event Translator converts the contract's
emitted attributes into host event records attributed to the contract
address (`types.ParseEvents`, outside the file under analysis). -/
def ParseEvents (attributes : List Attribute) (contractAddr : Addr) : List Event :=
  [{ ty := "wasm", contractAddr := contractAddr, attributes := attributes }]

/-- `ctx.EventManager().EmitEvents(events)`: append to the host event log. -/
def emitEvents (ctx : HostState) (events : List Event) : HostState :=
  { ctx with events := ctx.events ++ events }

/-- The keeper: the resolver, the query plugins, the six VM entry points of
the `wasmer` engine, and the dispatch-outcome oracle of the messenger.
All collaborators are left abstract (arbitrary functions), so theorems
quantifying over a `Keeper` cover every behaviour of the externals. -/
structure Keeper where
  resolve : HostState → Addr → Option (ContractInfo × CodeInfo × PrefixStore)
  queryPlugins : Nat
  ibcChannelOpen : Bytes → Env → IBCChannel → PrefixStore → HostFunctions →
    QueryHandler → Nat → VMResult Unit
  ibcChannelConnect : Bytes → Env → IBCChannel → PrefixStore → HostFunctions →
    QueryHandler → Nat → VMResult IBCBasicResponse
  ibcChannelClose : Bytes → Env → IBCChannel → PrefixStore → HostFunctions →
    QueryHandler → Nat → VMResult IBCBasicResponse
  ibcPacketReceive : Bytes → Env → IBCPacket → PrefixStore → HostFunctions →
    QueryHandler → Nat → VMResult IBCReceiveResponse
  ibcPacketAck : Bytes → Env → IBCAcknowledgement → PrefixStore → HostFunctions →
    QueryHandler → Nat → VMResult IBCBasicResponse
  ibcPacketTimeout : Bytes → Env → IBCPacket → PrefixStore → HostFunctions →
    QueryHandler → Nat → VMResult IBCBasicResponse
  dispatchOutcome : HostState → Addr → PortID → List CosmosMsg → Option String

/-- Modelled from the spec: `Resolver.Resolve(address)` returns the
instance metadata, code identity and storage handle, or a not-found error
(`Keeper.contractInstance`, outside the file under analysis). -/
def Keeper.contractInstance (k : Keeper) (ctx : HostState) (contractAddr : Addr) :
    Except Error (ContractInfo × CodeInfo × PrefixStore) :=
  match k.resolve ctx contractAddr with
  | none => .error .notFound
  | some r => .ok r

/-- Modelled from the spec: `MessageDispatcher.Dispatch` executes the
follow-up messages scoped to the given contract address and port and
propagates any failure.  The embedding records the invocation in the
dispatch log and consults the outcome oracle; the sub-messages' own state
effects are outside this core. -/
def Keeper.Dispatch (k : Keeper) (ctx : HostState) (contractAddr : Addr)
    (port : PortID) (messages : List CosmosMsg) : HostState × Option String :=
  ({ ctx with dispatched := ctx.dispatched ++ [⟨contractAddr, port, messages⟩] },
   k.dispatchOutcome ctx contractAddr port messages)

/-- Lines 25–32 of `relay.go`: build the environment, the querier and the
gas budget, and invoke the VM's channel-open entry point. -/
def openVMCall (k : Keeper) (ctx : HostState) (contractAddr : Addr)
    (channel : IBCChannel) (codeInfo : CodeInfo) (ps : PrefixStore) :
    VMResult Unit :=
  let env := NewEnv ctx contractAddr
  let querier : QueryHandler := { Ctx := ctx, Plugins := k.queryPlugins }
  let gas := gasForContract ctx
  k.ibcChannelOpen codeInfo.codeHash env channel ps cosmwasmAPI querier gas

/-- Lines 58–65 of `relay.go`: the channel-connect VM invocation. -/
def connectVMCall (k : Keeper) (ctx : HostState) (contractAddr : Addr)
    (channel : IBCChannel) (codeInfo : CodeInfo) (ps : PrefixStore) :
    VMResult IBCBasicResponse :=
  let env := NewEnv ctx contractAddr
  let querier : QueryHandler := { Ctx := ctx, Plugins := k.queryPlugins }
  let gas := gasForContract ctx
  k.ibcChannelConnect codeInfo.codeHash env channel ps cosmwasmAPI querier gas

/-- Lines 97–104 of `relay.go`: the channel-close VM invocation. -/
def closeVMCall (k : Keeper) (ctx : HostState) (contractAddr : Addr)
    (channel : IBCChannel) (codeInfo : CodeInfo) (ps : PrefixStore) :
    VMResult IBCBasicResponse :=
  let params := NewEnv ctx contractAddr
  let querier : QueryHandler := { Ctx := ctx, Plugins := k.queryPlugins }
  let gas := gasForContract ctx
  k.ibcChannelClose codeInfo.codeHash params channel ps cosmwasmAPI querier gas

/-- Lines 136–143 of `relay.go`: the packet-receive VM invocation. -/
def recvVMCall (k : Keeper) (ctx : HostState) (contractAddr : Addr)
    (packet : IBCPacket) (codeInfo : CodeInfo) (ps : PrefixStore) :
    VMResult IBCReceiveResponse :=
  let env := NewEnv ctx contractAddr
  let querier : QueryHandler := { Ctx := ctx, Plugins := k.queryPlugins }
  let gas := gasForContract ctx
  k.ibcPacketReceive codeInfo.codeHash env packet ps cosmwasmAPI querier gas

/-- Lines 176–183 of `relay.go`: the packet-ack VM invocation. -/
def ackVMCall (k : Keeper) (ctx : HostState) (contractAddr : Addr)
    (acknowledgement : IBCAcknowledgement) (codeInfo : CodeInfo)
    (ps : PrefixStore) : VMResult IBCBasicResponse :=
  let env := NewEnv ctx contractAddr
  let querier : QueryHandler := { Ctx := ctx, Plugins := k.queryPlugins }
  let gas := gasForContract ctx
  k.ibcPacketAck codeInfo.codeHash env acknowledgement ps cosmwasmAPI querier gas

/-- Lines 212–219 of `relay.go`: the packet-timeout VM invocation. -/
def timeoutVMCall (k : Keeper) (ctx : HostState) (contractAddr : Addr)
    (packet : IBCPacket) (codeInfo : CodeInfo) (ps : PrefixStore) :
    VMResult IBCBasicResponse :=
  let env := NewEnv ctx contractAddr
  let querier : QueryHandler := { Ctx := ctx, Plugins := k.queryPlugins }
  let gas := gasForContract ctx
  k.ibcPacketTimeout codeInfo.codeHash env packet ps cosmwasmAPI querier gas

/-- `OnOpenChannel`, lines 15–39 of `relay.go`: resolve the contract,
invoke the channel-open entry point, consume the reported gas, and return
either the wrapped execution error or success.  No events are emitted and
no messages are dispatched. -/
def Keeper.OnOpenChannel (k : Keeper) (ctx : HostState) (contractAddr : Addr)
    (channel : IBCChannel) : HostState × Option Error :=
  let ctx1 := { ctx with resolveTrace := ctx.resolveTrace ++ [contractAddr] }
  match k.contractInstance ctx contractAddr with
  | .error e => (ctx1, some e)
  | .ok (_, codeInfo, ps) =>
    let out := openVMCall k ctx contractAddr channel codeInfo ps
    let ctx2 := { ctx1 with vmTrace := ctx1.vmTrace ++ [EntryPoint.channelOpen] }
    let ctx3 := consumeGas ctx2 out.gasUsed
    match out with
    | .err _ msg => (ctx3, some (Error.execFailed msg))
    | .ok _ _ => (ctx3, none)

/-- `OnConnectChannel`, lines 48–79 of `relay.go`: resolve, invoke the
channel-connect entry point, consume gas; on VM success translate the
attributes into events, emit them, then dispatch the follow-up messages
scoped to the contract's address and IBC port, propagating any dispatch
failure. -/
def Keeper.OnConnectChannel (k : Keeper) (ctx : HostState) (contractAddr : Addr)
    (channel : IBCChannel) : HostState × Option Error :=
  let ctx1 := { ctx with resolveTrace := ctx.resolveTrace ++ [contractAddr] }
  match k.contractInstance ctx contractAddr with
  | .error e => (ctx1, some e)
  | .ok (contractInfo, codeInfo, ps) =>
    let out := connectVMCall k ctx contractAddr channel codeInfo ps
    let ctx2 := { ctx1 with vmTrace := ctx1.vmTrace ++ [EntryPoint.channelConnect] }
    let ctx3 := consumeGas ctx2 out.gasUsed
    match out with
    | .err _ msg => (ctx3, some (Error.execFailed msg))
    | .ok res _ =>
      let events := ParseEvents res.attributes contractAddr
      let ctx4 := emitEvents ctx3 events
      let d := k.Dispatch ctx4 contractAddr contractInfo.ibcPortID res.messages
      match d.2 with
      | some m => (d.1, some (Error.dispatchFailed m))
      | none => (d.1, none)

/-- `OnCloseChannel`, lines 87–118 of `relay.go`: same shape as
`OnConnectChannel` with the channel-close entry point. -/
def Keeper.OnCloseChannel (k : Keeper) (ctx : HostState) (contractAddr : Addr)
    (channel : IBCChannel) : HostState × Option Error :=
  let ctx1 := { ctx with resolveTrace := ctx.resolveTrace ++ [contractAddr] }
  match k.contractInstance ctx contractAddr with
  | .error e => (ctx1, some e)
  | .ok (contractInfo, codeInfo, ps) =>
    let out := closeVMCall k ctx contractAddr channel codeInfo ps
    let ctx2 := { ctx1 with vmTrace := ctx1.vmTrace ++ [EntryPoint.channelClose] }
    let ctx3 := consumeGas ctx2 out.gasUsed
    match out with
    | .err _ msg => (ctx3, some (Error.execFailed msg))
    | .ok res _ =>
      let events := ParseEvents res.attributes contractAddr
      let ctx4 := emitEvents ctx3 events
      let d := k.Dispatch ctx4 contractAddr contractInfo.ibcPortID res.messages
      match d.2 with
      | some m => (d.1, some (Error.dispatchFailed m))
      | none => (d.1, none)

/-- `OnRecvPacket`, lines 126–157 of `relay.go`: resolve, invoke the
packet-receive entry point, consume gas; on VM success emit the events and
dispatch the messages, and only if dispatch also succeeds return the VM's
acknowledgement bytes.  Every error path returns no acknowledgement
(`nil`, modelled as `none`). -/
def Keeper.OnRecvPacket (k : Keeper) (ctx : HostState) (contractAddr : Addr)
    (packet : IBCPacket) : HostState × Option Bytes × Option Error :=
  let ctx1 := { ctx with resolveTrace := ctx.resolveTrace ++ [contractAddr] }
  match k.contractInstance ctx contractAddr with
  | .error e => (ctx1, none, some e)
  | .ok (contractInfo, codeInfo, ps) =>
    let out := recvVMCall k ctx contractAddr packet codeInfo ps
    let ctx2 := { ctx1 with vmTrace := ctx1.vmTrace ++ [EntryPoint.packetReceive] }
    let ctx3 := consumeGas ctx2 out.gasUsed
    match out with
    | .err _ msg => (ctx3, none, some (Error.execFailed msg))
    | .ok res _ =>
      let events := ParseEvents res.attributes contractAddr
      let ctx4 := emitEvents ctx3 events
      let d := k.Dispatch ctx4 contractAddr contractInfo.ibcPortID res.messages
      match d.2 with
      | some m => (d.1, none, some (Error.dispatchFailed m))
      | none => (d.1, some res.acknowledgement, none)

/-- `OnAckPacket`, lines 166–197 of `relay.go`: same shape as
`OnConnectChannel` with the packet-ack entry point. -/
def Keeper.OnAckPacket (k : Keeper) (ctx : HostState) (contractAddr : Addr)
    (acknowledgement : IBCAcknowledgement) : HostState × Option Error :=
  let ctx1 := { ctx with resolveTrace := ctx.resolveTrace ++ [contractAddr] }
  match k.contractInstance ctx contractAddr with
  | .error e => (ctx1, some e)
  | .ok (contractInfo, codeInfo, ps) =>
    let out := ackVMCall k ctx contractAddr acknowledgement codeInfo ps
    let ctx2 := { ctx1 with vmTrace := ctx1.vmTrace ++ [EntryPoint.packetAck] }
    let ctx3 := consumeGas ctx2 out.gasUsed
    match out with
    | .err _ msg => (ctx3, some (Error.execFailed msg))
    | .ok res _ =>
      let events := ParseEvents res.attributes contractAddr
      let ctx4 := emitEvents ctx3 events
      let d := k.Dispatch ctx4 contractAddr contractInfo.ibcPortID res.messages
      match d.2 with
      | some m => (d.1, some (Error.dispatchFailed m))
      | none => (d.1, none)

/-- `OnTimeoutPacket`, lines 202–233 of `relay.go`: same shape as
`OnConnectChannel` with the packet-timeout entry point. -/
def Keeper.OnTimeoutPacket (k : Keeper) (ctx : HostState) (contractAddr : Addr)
    (packet : IBCPacket) : HostState × Option Error :=
  let ctx1 := { ctx with resolveTrace := ctx.resolveTrace ++ [contractAddr] }
  match k.contractInstance ctx contractAddr with
  | .error e => (ctx1, some e)
  | .ok (contractInfo, codeInfo, ps) =>
    let out := timeoutVMCall k ctx contractAddr packet codeInfo ps
    let ctx2 := { ctx1 with vmTrace := ctx1.vmTrace ++ [EntryPoint.packetTimeout] }
    let ctx3 := consumeGas ctx2 out.gasUsed
    match out with
    | .err _ msg => (ctx3, some (Error.execFailed msg))
    | .ok res _ =>
      let events := ParseEvents res.attributes contractAddr
      let ctx4 := emitEvents ctx3 events
      let d := k.Dispatch ctx4 contractAddr contractInfo.ibcPortID res.messages
      match d.2 with
      | some m => (d.1, some (Error.dispatchFailed m))
      | none => (d.1, none)

/-- The external VM's metering contract: the reported gas used never
exceeds the gas limit handed to the entry point.  This is a property of
the VM collaborator, not enforced by the dispatcher code. -/
def VMRespectsBudget (k : Keeper) : Prop :=
  (∀ ch env c ps api q gas, (k.ibcChannelOpen ch env c ps api q gas).gasUsed ≤ gas) ∧
  (∀ ch env c ps api q gas, (k.ibcChannelConnect ch env c ps api q gas).gasUsed ≤ gas) ∧
  (∀ ch env c ps api q gas, (k.ibcChannelClose ch env c ps api q gas).gasUsed ≤ gas) ∧
  (∀ ch env p ps api q gas, (k.ibcPacketReceive ch env p ps api q gas).gasUsed ≤ gas) ∧
  (∀ ch env a ps api q gas, (k.ibcPacketAck ch env a ps api q gas).gasUsed ≤ gas) ∧
  (∀ ch env p ps api q gas, (k.ibcPacketTimeout ch env p ps api q gas).gasUsed ≤ gas)

/-! Concrete fixtures used by the witness theorems. -/

/-- Witness contract metadata. -/
def ciW : ContractInfo := ⟨"wasm.port-7"⟩

/-- Witness code info. -/
def coW : CodeInfo := ⟨[1, 2, 3]⟩

/-- Witness initial host state. -/
def stW : HostState :=
  { blockHeight := 10, blockTime := 1000, gasLimit := 500, gasConsumed := 5,
    events := [], dispatched := [], resolveTrace := [], vmTrace := [] }

/-- Witness basic VM response: one attribute, one follow-up message. -/
def basicResW : IBCBasicResponse :=
  { attributes := [⟨"action", "go"⟩], messages := ["msg1"] }

/-- Witness receive VM response: acknowledgement byte `0x01`. -/
def recvResW : IBCReceiveResponse :=
  { acknowledgement := [1], attributes := [⟨"action", "receive"⟩],
    messages := ["msg1"] }

/-- Witness keeper whose collaborators all succeed (VM reports 0 gas). -/
def kOk : Keeper :=
  { resolve := fun _ _ => some (ciW, coW, 0)
    queryPlugins := 0
    ibcChannelOpen := fun _ _ _ _ _ _ _ => .ok () 0
    ibcChannelConnect := fun _ _ _ _ _ _ _ => .ok basicResW 0
    ibcChannelClose := fun _ _ _ _ _ _ _ => .ok basicResW 0
    ibcPacketReceive := fun _ _ _ _ _ _ _ => .ok recvResW 0
    ibcPacketAck := fun _ _ _ _ _ _ _ => .ok basicResW 0
    ibcPacketTimeout := fun _ _ _ _ _ _ _ => .ok basicResW 0
    dispatchOutcome := fun _ _ _ _ => none }

/-- Witness keeper whose VM reports an execution error on every entry point. -/
def kErr : Keeper :=
  { kOk with
    ibcChannelOpen := fun _ _ _ _ _ _ _ => .err 3 "boom"
    ibcChannelConnect := fun _ _ _ _ _ _ _ => .err 3 "boom"
    ibcChannelClose := fun _ _ _ _ _ _ _ => .err 3 "boom"
    ibcPacketReceive := fun _ _ _ _ _ _ _ => .err 3 "boom"
    ibcPacketAck := fun _ _ _ _ _ _ _ => .err 3 "boom"
    ibcPacketTimeout := fun _ _ _ _ _ _ _ => .err 3 "boom" }

/-- Witness keeper whose message dispatcher fails. -/
def kDispFail : Keeper :=
  { kOk with dispatchOutcome := fun _ _ _ _ => some "dispatch boom" }

/-- Witness keeper that resolves no contract address. -/
def kNone : Keeper :=
  { kOk with resolve := fun _ _ => none }

/-- The all-succeeding witness keeper's VM honours its gas budgets. -/
theorem kOk_respects_budget : VMRespectsBudget kOk := by
  refine ⟨?_, ?_, ?_, ?_, ?_, ?_⟩ <;> intro _ _ _ _ _ _ _ <;>
    simp [kOk, VMResult.gasUsed]

/-- Claim C6: the channel-open handler never emits events and never
dispatches messages, whatever the resolver and the VM return. -/
theorem open_channel_no_side_effects (k : Keeper) (st : HostState)
    (contractAddr : Addr) (channel : IBCChannel) :
    (k.OnOpenChannel st contractAddr channel).1.events = st.events ∧
    (k.OnOpenChannel st contractAddr channel).1.dispatched = st.dispatched := by
  cases hres : k.resolve st contractAddr with
  | none => simp [Keeper.OnOpenChannel, Keeper.contractInstance, hres]
  | some r =>
    obtain ⟨ci, co, ps⟩ := r
    cases hout : openVMCall k st contractAddr channel co ps with
    | err g msg =>
      simp [Keeper.OnOpenChannel, Keeper.contractInstance, hres, hout, consumeGas]
    | ok u g =>
      simp [Keeper.OnOpenChannel, Keeper.contractInstance, hres, hout, consumeGas]

/-- Claim C3: when the contract address does not resolve, every handler
returns the resolution error immediately: the returned state differs from
the input state only in the recorded resolution attempt — zero gas
consumed, no VM entry point invoked, no events, no dispatches — and the
receive handler additionally returns no acknowledgement. -/
theorem resolution_failure_is_inert (k : Keeper) (st : HostState)
    (contractAddr : Addr) (channel : IBCChannel) (packet : IBCPacket)
    (acknowledgement : IBCAcknowledgement)
    (hres : k.resolve st contractAddr = none) :
    k.OnOpenChannel st contractAddr channel
      = ({ st with resolveTrace := st.resolveTrace ++ [contractAddr] },
         some Error.notFound) ∧
    k.OnConnectChannel st contractAddr channel
      = ({ st with resolveTrace := st.resolveTrace ++ [contractAddr] },
         some Error.notFound) ∧
    k.OnCloseChannel st contractAddr channel
      = ({ st with resolveTrace := st.resolveTrace ++ [contractAddr] },
         some Error.notFound) ∧
    k.OnRecvPacket st contractAddr packet
      = ({ st with resolveTrace := st.resolveTrace ++ [contractAddr] },
         none, some Error.notFound) ∧
    k.OnAckPacket st contractAddr acknowledgement
      = ({ st with resolveTrace := st.resolveTrace ++ [contractAddr] },
         some Error.notFound) ∧
    k.OnTimeoutPacket st contractAddr packet
      = ({ st with resolveTrace := st.resolveTrace ++ [contractAddr] },
         some Error.notFound) := by
  refine ⟨?_, ?_, ?_, ?_, ?_, ?_⟩ <;>
    simp [Keeper.OnOpenChannel, Keeper.OnConnectChannel, Keeper.OnCloseChannel,
      Keeper.OnRecvPacket, Keeper.OnAckPacket, Keeper.OnTimeoutPacket,
      Keeper.contractInstance, hres]

/-- Witness for C3 at a concrete unresolvable address: the error is
returned, the gas ledger, event log and dispatch log are untouched, and no
VM entry point was invoked. -/
theorem resolution_failure_is_inert_witness :
    (kNone.OnRecvPacket stW "contractA" "pkt")
      = ({ stW with resolveTrace := ["contractA"] }, none, some Error.notFound) ∧
    (kNone.OnOpenChannel stW "contractA" "chan").1.gasConsumed = stW.gasConsumed := by
  have h := resolution_failure_is_inert kNone stW "contractA" "chan" "pkt" "ackd" rfl
  exact ⟨by simpa [stW] using h.2.2.2.1, by simp [h.1]⟩

/-! Per-handler gas-accounting lemmas, shared by several claims. -/

/-- Gas accounting of `OnOpenChannel` once the contract resolves. -/
theorem onOpen_gas (k : Keeper) (st : HostState) (contractAddr : Addr)
    (channel : IBCChannel) (ci : ContractInfo) (co : CodeInfo) (ps : PrefixStore)
    (hres : k.resolve st contractAddr = some (ci, co, ps)) :
    (k.OnOpenChannel st contractAddr channel).1.gasConsumed
      = st.gasConsumed + (openVMCall k st contractAddr channel co ps).gasUsed := by
  cases hout : openVMCall k st contractAddr channel co ps <;>
    simp [Keeper.OnOpenChannel, Keeper.contractInstance, hres, hout, consumeGas,
      VMResult.gasUsed]

/-- Gas accounting of `OnConnectChannel` once the contract resolves. -/
theorem onConnect_gas (k : Keeper) (st : HostState) (contractAddr : Addr)
    (channel : IBCChannel) (ci : ContractInfo) (co : CodeInfo) (ps : PrefixStore)
    (hres : k.resolve st contractAddr = some (ci, co, ps)) :
    (k.OnConnectChannel st contractAddr channel).1.gasConsumed
      = st.gasConsumed + (connectVMCall k st contractAddr channel co ps).gasUsed := by
  cases hout : connectVMCall k st contractAddr channel co ps with
  | err g msg =>
    simp [Keeper.OnConnectChannel, Keeper.contractInstance, hres, hout, consumeGas,
      VMResult.gasUsed]
  | ok res g =>
    simp only [Keeper.OnConnectChannel, Keeper.contractInstance, hres, hout,
      Keeper.Dispatch]
    split <;> simp [consumeGas, emitEvents, VMResult.gasUsed]

/-- Gas accounting of `OnCloseChannel` once the contract resolves. -/
theorem onClose_gas (k : Keeper) (st : HostState) (contractAddr : Addr)
    (channel : IBCChannel) (ci : ContractInfo) (co : CodeInfo) (ps : PrefixStore)
    (hres : k.resolve st contractAddr = some (ci, co, ps)) :
    (k.OnCloseChannel st contractAddr channel).1.gasConsumed
      = st.gasConsumed + (closeVMCall k st contractAddr channel co ps).gasUsed := by
  cases hout : closeVMCall k st contractAddr channel co ps with
  | err g msg =>
    simp [Keeper.OnCloseChannel, Keeper.contractInstance, hres, hout, consumeGas,
      VMResult.gasUsed]
  | ok res g =>
    simp only [Keeper.OnCloseChannel, Keeper.contractInstance, hres, hout,
      Keeper.Dispatch]
    split <;> simp [consumeGas, emitEvents, VMResult.gasUsed]

/-- Gas accounting of `OnRecvPacket` once the contract resolves. -/
theorem onRecv_gas (k : Keeper) (st : HostState) (contractAddr : Addr)
    (packet : IBCPacket) (ci : ContractInfo) (co : CodeInfo) (ps : PrefixStore)
    (hres : k.resolve st contractAddr = some (ci, co, ps)) :
    (k.OnRecvPacket st contractAddr packet).1.gasConsumed
      = st.gasConsumed + (recvVMCall k st contractAddr packet co ps).gasUsed := by
  cases hout : recvVMCall k st contractAddr packet co ps with
  | err g msg =>
    simp [Keeper.OnRecvPacket, Keeper.contractInstance, hres, hout, consumeGas,
      VMResult.gasUsed]
  | ok res g =>
    simp only [Keeper.OnRecvPacket, Keeper.contractInstance, hres, hout,
      Keeper.Dispatch]
    split <;> simp [consumeGas, emitEvents, VMResult.gasUsed]

/-- Gas accounting of `OnAckPacket` once the contract resolves. -/
theorem onAck_gas (k : Keeper) (st : HostState) (contractAddr : Addr)
    (acknowledgement : IBCAcknowledgement) (ci : ContractInfo) (co : CodeInfo)
    (ps : PrefixStore)
    (hres : k.resolve st contractAddr = some (ci, co, ps)) :
    (k.OnAckPacket st contractAddr acknowledgement).1.gasConsumed
      = st.gasConsumed
        + (ackVMCall k st contractAddr acknowledgement co ps).gasUsed := by
  cases hout : ackVMCall k st contractAddr acknowledgement co ps with
  | err g msg =>
    simp [Keeper.OnAckPacket, Keeper.contractInstance, hres, hout, consumeGas,
      VMResult.gasUsed]
  | ok res g =>
    simp only [Keeper.OnAckPacket, Keeper.contractInstance, hres, hout,
      Keeper.Dispatch]
    split <;> simp [consumeGas, emitEvents, VMResult.gasUsed]

/-- Gas accounting of `OnTimeoutPacket` once the contract resolves. -/
theorem onTimeout_gas (k : Keeper) (st : HostState) (contractAddr : Addr)
    (packet : IBCPacket) (ci : ContractInfo) (co : CodeInfo) (ps : PrefixStore)
    (hres : k.resolve st contractAddr = some (ci, co, ps)) :
    (k.OnTimeoutPacket st contractAddr packet).1.gasConsumed
      = st.gasConsumed + (timeoutVMCall k st contractAddr packet co ps).gasUsed := by
  cases hout : timeoutVMCall k st contractAddr packet co ps with
  | err g msg =>
    simp [Keeper.OnTimeoutPacket, Keeper.contractInstance, hres, hout, consumeGas,
      VMResult.gasUsed]
  | ok res g =>
    simp only [Keeper.OnTimeoutPacket, Keeper.contractInstance, hres, hout,
      Keeper.Dispatch]
    split <;> simp [consumeGas, emitEvents, VMResult.gasUsed]

/-- Claim C1: for every handler and every VM outcome (success or error),
the ambient ledger's consumed-gas counter increases by exactly the gas the
VM reported for that call, and — given the VM's metering contract — that
amount never exceeds the budget computed before the call. -/
theorem gas_always_charged (k : Keeper) (st : HostState) (contractAddr : Addr)
    (channel : IBCChannel) (packet : IBCPacket)
    (acknowledgement : IBCAcknowledgement)
    (ci : ContractInfo) (co : CodeInfo) (ps : PrefixStore)
    (hres : k.resolve st contractAddr = some (ci, co, ps))
    (hbudget : VMRespectsBudget k) :
    ((k.OnOpenChannel st contractAddr channel).1.gasConsumed
        = st.gasConsumed + (openVMCall k st contractAddr channel co ps).gasUsed ∧
      (openVMCall k st contractAddr channel co ps).gasUsed ≤ gasForContract st) ∧
    ((k.OnConnectChannel st contractAddr channel).1.gasConsumed
        = st.gasConsumed + (connectVMCall k st contractAddr channel co ps).gasUsed ∧
      (connectVMCall k st contractAddr channel co ps).gasUsed ≤ gasForContract st) ∧
    ((k.OnCloseChannel st contractAddr channel).1.gasConsumed
        = st.gasConsumed + (closeVMCall k st contractAddr channel co ps).gasUsed ∧
      (closeVMCall k st contractAddr channel co ps).gasUsed ≤ gasForContract st) ∧
    ((k.OnRecvPacket st contractAddr packet).1.gasConsumed
        = st.gasConsumed + (recvVMCall k st contractAddr packet co ps).gasUsed ∧
      (recvVMCall k st contractAddr packet co ps).gasUsed ≤ gasForContract st) ∧
    ((k.OnAckPacket st contractAddr acknowledgement).1.gasConsumed
        = st.gasConsumed
          + (ackVMCall k st contractAddr acknowledgement co ps).gasUsed ∧
      (ackVMCall k st contractAddr acknowledgement co ps).gasUsed
        ≤ gasForContract st) ∧
    ((k.OnTimeoutPacket st contractAddr packet).1.gasConsumed
        = st.gasConsumed + (timeoutVMCall k st contractAddr packet co ps).gasUsed ∧
      (timeoutVMCall k st contractAddr packet co ps).gasUsed ≤ gasForContract st) := by
  obtain ⟨h1, h2, h3, h4, h5, h6⟩ := hbudget
  refine ⟨⟨onOpen_gas k st contractAddr channel ci co ps hres, ?_⟩,
    ⟨onConnect_gas k st contractAddr channel ci co ps hres, ?_⟩,
    ⟨onClose_gas k st contractAddr channel ci co ps hres, ?_⟩,
    ⟨onRecv_gas k st contractAddr packet ci co ps hres, ?_⟩,
    ⟨onAck_gas k st contractAddr acknowledgement ci co ps hres, ?_⟩,
    ⟨onTimeout_gas k st contractAddr packet ci co ps hres, ?_⟩⟩
  · simpa [openVMCall] using
      h1 co.codeHash (NewEnv st contractAddr) channel ps cosmwasmAPI
        ⟨st, k.queryPlugins⟩ (gasForContract st)
  · simpa [connectVMCall] using
      h2 co.codeHash (NewEnv st contractAddr) channel ps cosmwasmAPI
        ⟨st, k.queryPlugins⟩ (gasForContract st)
  · simpa [closeVMCall] using
      h3 co.codeHash (NewEnv st contractAddr) channel ps cosmwasmAPI
        ⟨st, k.queryPlugins⟩ (gasForContract st)
  · simpa [recvVMCall] using
      h4 co.codeHash (NewEnv st contractAddr) packet ps cosmwasmAPI
        ⟨st, k.queryPlugins⟩ (gasForContract st)
  · simpa [ackVMCall] using
      h5 co.codeHash (NewEnv st contractAddr) acknowledgement ps cosmwasmAPI
        ⟨st, k.queryPlugins⟩ (gasForContract st)
  · simpa [timeoutVMCall] using
      h6 co.codeHash (NewEnv st contractAddr) packet ps cosmwasmAPI
        ⟨st, k.queryPlugins⟩ (gasForContract st)

/-- Witness for C1 at the all-succeeding keeper: the reported gas (here 0)
is added to the ledger's counter of 5. -/
theorem gas_always_charged_witness :
    (kOk.OnRecvPacket stW "contractA" "pkt").1.gasConsumed = 5 ∧
    (kOk.OnOpenChannel stW "contractA" "chan").1.gasConsumed = 5 := by
  have h := gas_always_charged kOk stW "contractA" "chan" "pkt" "ackd"
    ciW coW 0 rfl kOk_respects_budget
  refine ⟨?_, ?_⟩
  · simpa [kOk, stW, recvVMCall, VMResult.gasUsed] using h.2.2.2.1.1
  · simpa [kOk, stW, openVMCall, VMResult.gasUsed] using h.1.1

/-- Claim C2: when the VM reports an execution error, every handler
returns the wrapped execution error; the returned state carries no new
events and no new dispatches — besides the instrumentation traces, the
only change is the gas consumption already recorded. -/
theorem no_effects_on_vm_failure (k : Keeper) (st : HostState)
    (contractAddr : Addr) (channel : IBCChannel) (packet : IBCPacket)
    (acknowledgement : IBCAcknowledgement)
    (ci : ContractInfo) (co : CodeInfo) (ps : PrefixStore)
    (g1 g2 g3 g4 g5 g6 : Nat) (m1 m2 m3 m4 m5 m6 : String)
    (hres : k.resolve st contractAddr = some (ci, co, ps))
    (h1 : openVMCall k st contractAddr channel co ps = .err g1 m1)
    (h2 : connectVMCall k st contractAddr channel co ps = .err g2 m2)
    (h3 : closeVMCall k st contractAddr channel co ps = .err g3 m3)
    (h4 : recvVMCall k st contractAddr packet co ps = .err g4 m4)
    (h5 : ackVMCall k st contractAddr acknowledgement co ps = .err g5 m5)
    (h6 : timeoutVMCall k st contractAddr packet co ps = .err g6 m6) :
    k.OnOpenChannel st contractAddr channel
      = ({ st with resolveTrace := st.resolveTrace ++ [contractAddr],
                   vmTrace := st.vmTrace ++ [EntryPoint.channelOpen],
                   gasConsumed := st.gasConsumed + g1 },
         some (Error.execFailed m1)) ∧
    k.OnConnectChannel st contractAddr channel
      = ({ st with resolveTrace := st.resolveTrace ++ [contractAddr],
                   vmTrace := st.vmTrace ++ [EntryPoint.channelConnect],
                   gasConsumed := st.gasConsumed + g2 },
         some (Error.execFailed m2)) ∧
    k.OnCloseChannel st contractAddr channel
      = ({ st with resolveTrace := st.resolveTrace ++ [contractAddr],
                   vmTrace := st.vmTrace ++ [EntryPoint.channelClose],
                   gasConsumed := st.gasConsumed + g3 },
         some (Error.execFailed m3)) ∧
    k.OnRecvPacket st contractAddr packet
      = ({ st with resolveTrace := st.resolveTrace ++ [contractAddr],
                   vmTrace := st.vmTrace ++ [EntryPoint.packetReceive],
                   gasConsumed := st.gasConsumed + g4 },
         none, some (Error.execFailed m4)) ∧
    k.OnAckPacket st contractAddr acknowledgement
      = ({ st with resolveTrace := st.resolveTrace ++ [contractAddr],
                   vmTrace := st.vmTrace ++ [EntryPoint.packetAck],
                   gasConsumed := st.gasConsumed + g5 },
         some (Error.execFailed m5)) ∧
    k.OnTimeoutPacket st contractAddr packet
      = ({ st with resolveTrace := st.resolveTrace ++ [contractAddr],
                   vmTrace := st.vmTrace ++ [EntryPoint.packetTimeout],
                   gasConsumed := st.gasConsumed + g6 },
         some (Error.execFailed m6)) := by
  refine ⟨?_, ?_, ?_, ?_, ?_, ?_⟩ <;>
    simp [Keeper.OnOpenChannel, Keeper.OnConnectChannel, Keeper.OnCloseChannel,
      Keeper.OnRecvPacket, Keeper.OnAckPacket, Keeper.OnTimeoutPacket,
      Keeper.contractInstance, hres, h1, h2, h3, h4, h5, h6, consumeGas,
      VMResult.gasUsed]

/-- Witness for C2 at a keeper whose VM traps with "boom" after 3 gas: the
receive handler charges the gas, emits nothing, dispatches nothing, and
returns the wrapped error with no acknowledgement. -/
theorem no_effects_on_vm_failure_witness :
    kErr.OnRecvPacket stW "contractA" "pkt"
      = ({ stW with resolveTrace := ["contractA"],
                    vmTrace := [EntryPoint.packetReceive],
                    gasConsumed := 8 },
         none, some (Error.execFailed "boom")) ∧
    (kErr.OnRecvPacket stW "contractA" "pkt").1.events = [] ∧
    (kErr.OnRecvPacket stW "contractA" "pkt").1.dispatched = [] := by
  have h := no_effects_on_vm_failure kErr stW "contractA" "chan" "pkt" "ackd"
    ciW coW 0 3 3 3 3 3 3 "boom" "boom" "boom" "boom" "boom" "boom"
    rfl rfl rfl rfl rfl rfl rfl
  refine ⟨by simpa [stW] using h.2.2.2.1, ?_, ?_⟩ <;>
    (rw [h.2.2.2.1]; simp [stW])

/-- Claim C4: a fully successful packet receive returns exactly the
acknowledgement bytes the VM reported, unmodified. -/
theorem recv_ack_verbatim (k : Keeper) (st : HostState) (contractAddr : Addr)
    (packet : IBCPacket) (ci : ContractInfo) (co : CodeInfo) (ps : PrefixStore)
    (res : IBCReceiveResponse) (g : Nat)
    (hres : k.resolve st contractAddr = some (ci, co, ps))
    (hvm : recvVMCall k st contractAddr packet co ps = .ok res g)
    (hok : (k.OnRecvPacket st contractAddr packet).2.2 = none) :
    (k.OnRecvPacket st contractAddr packet).2.1 = some res.acknowledgement := by
  simp only [Keeper.OnRecvPacket, Keeper.contractInstance, hres, hvm,
    Keeper.Dispatch] at hok ⊢
  split at hok <;> simp_all

/-- Witness for C4: the all-succeeding keeper's VM reports acknowledgement
`[1]`, and the handler returns exactly `some [1]`. -/
theorem recv_ack_verbatim_witness :
    (kOk.OnRecvPacket stW "contractA" "pkt").2.1 = some [1] := by
  have h := recv_ack_verbatim kOk stW "contractA" "pkt" ciW coW 0 recvResW 0
    rfl rfl rfl
  simpa [recvResW] using h

/-- Claim C5: whenever a handler dispatches follow-up messages, the single
dispatcher invocation is attributed to the invoking contract's address and
to the IBC port recorded in that contract's resolved metadata. -/
theorem dispatch_scoped_to_contract (k : Keeper) (st : HostState)
    (contractAddr : Addr) (channel : IBCChannel) (packet : IBCPacket)
    (acknowledgement : IBCAcknowledgement)
    (ci : ContractInfo) (co : CodeInfo) (ps : PrefixStore)
    (res2 res3 res5 res6 : IBCBasicResponse) (res4 : IBCReceiveResponse)
    (g2 g3 g4 g5 g6 : Nat)
    (hres : k.resolve st contractAddr = some (ci, co, ps))
    (h2 : connectVMCall k st contractAddr channel co ps = .ok res2 g2)
    (h3 : closeVMCall k st contractAddr channel co ps = .ok res3 g3)
    (h4 : recvVMCall k st contractAddr packet co ps = .ok res4 g4)
    (h5 : ackVMCall k st contractAddr acknowledgement co ps = .ok res5 g5)
    (h6 : timeoutVMCall k st contractAddr packet co ps = .ok res6 g6) :
    (k.OnConnectChannel st contractAddr channel).1.dispatched
      = st.dispatched ++ [⟨contractAddr, ci.ibcPortID, res2.messages⟩] ∧
    (k.OnCloseChannel st contractAddr channel).1.dispatched
      = st.dispatched ++ [⟨contractAddr, ci.ibcPortID, res3.messages⟩] ∧
    (k.OnRecvPacket st contractAddr packet).1.dispatched
      = st.dispatched ++ [⟨contractAddr, ci.ibcPortID, res4.messages⟩] ∧
    (k.OnAckPacket st contractAddr acknowledgement).1.dispatched
      = st.dispatched ++ [⟨contractAddr, ci.ibcPortID, res5.messages⟩] ∧
    (k.OnTimeoutPacket st contractAddr packet).1.dispatched
      = st.dispatched ++ [⟨contractAddr, ci.ibcPortID, res6.messages⟩] := by
  refine ⟨?_, ?_, ?_, ?_, ?_⟩ <;>
    (simp only [Keeper.OnConnectChannel, Keeper.OnCloseChannel,
       Keeper.OnRecvPacket, Keeper.OnAckPacket, Keeper.OnTimeoutPacket,
       Keeper.contractInstance, hres, h2, h3, h4, h5, h6, Keeper.Dispatch];
     split <;> simp [consumeGas, emitEvents, VMResult.gasUsed])

/-- Witness for C5: the all-succeeding keeper dispatches the contract's
message `msg1` attributed to `contractA` and its resolved port
`wasm.port-7`. -/
theorem dispatch_scoped_to_contract_witness :
    (kOk.OnConnectChannel stW "contractA" "chan").1.dispatched
      = [⟨"contractA", "wasm.port-7", ["msg1"]⟩] ∧
    (kOk.OnRecvPacket stW "contractA" "pkt").1.dispatched
      = [⟨"contractA", "wasm.port-7", ["msg1"]⟩] := by
  have h := dispatch_scoped_to_contract kOk stW "contractA" "chan" "pkt" "ackd"
    ciW coW 0 basicResW basicResW basicResW basicResW recvResW 0 0 0 0 0
    rfl rfl rfl rfl rfl rfl
  exact ⟨by simpa [stW, ciW, basicResW] using h.1,
    by simpa [stW, ciW, recvResW] using h.2.2.1⟩

/-- The host state at the moment a handler invokes the message dispatcher:
the resolution and VM-call traces are recorded, the VM-reported gas has
been consumed, and the contract's events have already been emitted. -/
def preDispatchState (st : HostState) (contractAddr : Addr) (tag : EntryPoint)
    (g : Nat) (attributes : List Attribute) : HostState :=
  emitEvents
    (consumeGas
      { st with resolveTrace := st.resolveTrace ++ [contractAddr],
                vmTrace := st.vmTrace ++ [tag] } g)
    (ParseEvents attributes contractAddr)

/-- Claim C7: for each side-effect-emitting handler with a successful VM
call, the contract's attributes become events tagged with the contract
address and are appended to the event log; the dispatcher is invoked on a
state that already contains those events (emission precedes dispatch), and
the handler's returned error is exactly the dispatch outcome — a dispatch
failure is propagated while the emitted events stay in the returned state
(no rollback by the dispatcher). -/
theorem effects_order_and_dispatch_failure (k : Keeper) (st : HostState)
    (contractAddr : Addr) (channel : IBCChannel) (packet : IBCPacket)
    (acknowledgement : IBCAcknowledgement)
    (ci : ContractInfo) (co : CodeInfo) (ps : PrefixStore)
    (res2 res3 res5 res6 : IBCBasicResponse) (res4 : IBCReceiveResponse)
    (g2 g3 g4 g5 g6 : Nat)
    (hres : k.resolve st contractAddr = some (ci, co, ps))
    (h2 : connectVMCall k st contractAddr channel co ps = .ok res2 g2)
    (h3 : closeVMCall k st contractAddr channel co ps = .ok res3 g3)
    (h4 : recvVMCall k st contractAddr packet co ps = .ok res4 g4)
    (h5 : ackVMCall k st contractAddr acknowledgement co ps = .ok res5 g5)
    (h6 : timeoutVMCall k st contractAddr packet co ps = .ok res6 g6) :
    ((k.OnConnectChannel st contractAddr channel).1.events
        = st.events ++ ParseEvents res2.attributes contractAddr ∧
      ParseEvents res2.attributes contractAddr
        = [⟨"wasm", contractAddr, res2.attributes⟩] ∧
      (k.OnConnectChannel st contractAddr channel).2
        = (k.dispatchOutcome
            (preDispatchState st contractAddr EntryPoint.channelConnect g2
              res2.attributes)
            contractAddr ci.ibcPortID res2.messages).map Error.dispatchFailed) ∧
    ((k.OnCloseChannel st contractAddr channel).1.events
        = st.events ++ ParseEvents res3.attributes contractAddr ∧
      ParseEvents res3.attributes contractAddr
        = [⟨"wasm", contractAddr, res3.attributes⟩] ∧
      (k.OnCloseChannel st contractAddr channel).2
        = (k.dispatchOutcome
            (preDispatchState st contractAddr EntryPoint.channelClose g3
              res3.attributes)
            contractAddr ci.ibcPortID res3.messages).map Error.dispatchFailed) ∧
    ((k.OnRecvPacket st contractAddr packet).1.events
        = st.events ++ ParseEvents res4.attributes contractAddr ∧
      ParseEvents res4.attributes contractAddr
        = [⟨"wasm", contractAddr, res4.attributes⟩] ∧
      (k.OnRecvPacket st contractAddr packet).2.2
        = (k.dispatchOutcome
            (preDispatchState st contractAddr EntryPoint.packetReceive g4
              res4.attributes)
            contractAddr ci.ibcPortID res4.messages).map Error.dispatchFailed) ∧
    ((k.OnAckPacket st contractAddr acknowledgement).1.events
        = st.events ++ ParseEvents res5.attributes contractAddr ∧
      ParseEvents res5.attributes contractAddr
        = [⟨"wasm", contractAddr, res5.attributes⟩] ∧
      (k.OnAckPacket st contractAddr acknowledgement).2
        = (k.dispatchOutcome
            (preDispatchState st contractAddr EntryPoint.packetAck g5
              res5.attributes)
            contractAddr ci.ibcPortID res5.messages).map Error.dispatchFailed) ∧
    ((k.OnTimeoutPacket st contractAddr packet).1.events
        = st.events ++ ParseEvents res6.attributes contractAddr ∧
      ParseEvents res6.attributes contractAddr
        = [⟨"wasm", contractAddr, res6.attributes⟩] ∧
      (k.OnTimeoutPacket st contractAddr packet).2
        = (k.dispatchOutcome
            (preDispatchState st contractAddr EntryPoint.packetTimeout g6
              res6.attributes)
            contractAddr ci.ibcPortID res6.messages).map Error.dispatchFailed) := by
  refine ⟨⟨?_, rfl, ?_⟩, ⟨?_, rfl, ?_⟩, ⟨?_, rfl, ?_⟩, ⟨?_, rfl, ?_⟩,
    ⟨?_, rfl, ?_⟩⟩ <;>
    (simp only [Keeper.OnConnectChannel, Keeper.OnCloseChannel,
       Keeper.OnRecvPacket, Keeper.OnAckPacket, Keeper.OnTimeoutPacket,
       Keeper.contractInstance, hres, h2, h3, h4, h5, h6, Keeper.Dispatch];
     split <;>
       simp_all [preDispatchState, consumeGas, emitEvents, ParseEvents,
         VMResult.gasUsed])

/-- Witness for C7 at a keeper whose dispatcher fails: the connect handler
still returns a state containing the translated event tagged with the
contract address, and propagates the dispatch failure. -/
theorem effects_order_and_dispatch_failure_witness :
    (kDispFail.OnConnectChannel stW "contractA" "chan").1.events
      = [⟨"wasm", "contractA", [⟨"action", "go"⟩]⟩] ∧
    (kDispFail.OnConnectChannel stW "contractA" "chan").2
      = some (Error.dispatchFailed "dispatch boom") := by
  have h := effects_order_and_dispatch_failure kDispFail stW "contractA" "chan"
    "pkt" "ackd" ciW coW 0 basicResW basicResW basicResW basicResW recvResW
    0 0 0 0 0 rfl rfl rfl rfl rfl rfl
  exact ⟨by simpa [stW, basicResW, ParseEvents] using h.1.1,
    by simpa [kDispFail, basicResW] using h.1.2.2⟩

/-- Claim C9: once the contract resolves, every handler records exactly
one resolution of that address and exactly one VM invocation — of the
entry point matching its lifecycle event. -/
theorem single_resolve_single_vm_call (k : Keeper) (st : HostState)
    (contractAddr : Addr) (channel : IBCChannel) (packet : IBCPacket)
    (acknowledgement : IBCAcknowledgement)
    (ci : ContractInfo) (co : CodeInfo) (ps : PrefixStore)
    (hres : k.resolve st contractAddr = some (ci, co, ps)) :
    ((k.OnOpenChannel st contractAddr channel).1.resolveTrace
        = st.resolveTrace ++ [contractAddr] ∧
      (k.OnOpenChannel st contractAddr channel).1.vmTrace
        = st.vmTrace ++ [EntryPoint.channelOpen]) ∧
    ((k.OnConnectChannel st contractAddr channel).1.resolveTrace
        = st.resolveTrace ++ [contractAddr] ∧
      (k.OnConnectChannel st contractAddr channel).1.vmTrace
        = st.vmTrace ++ [EntryPoint.channelConnect]) ∧
    ((k.OnCloseChannel st contractAddr channel).1.resolveTrace
        = st.resolveTrace ++ [contractAddr] ∧
      (k.OnCloseChannel st contractAddr channel).1.vmTrace
        = st.vmTrace ++ [EntryPoint.channelClose]) ∧
    ((k.OnRecvPacket st contractAddr packet).1.resolveTrace
        = st.resolveTrace ++ [contractAddr] ∧
      (k.OnRecvPacket st contractAddr packet).1.vmTrace
        = st.vmTrace ++ [EntryPoint.packetReceive]) ∧
    ((k.OnAckPacket st contractAddr acknowledgement).1.resolveTrace
        = st.resolveTrace ++ [contractAddr] ∧
      (k.OnAckPacket st contractAddr acknowledgement).1.vmTrace
        = st.vmTrace ++ [EntryPoint.packetAck]) ∧
    ((k.OnTimeoutPacket st contractAddr packet).1.resolveTrace
        = st.resolveTrace ++ [contractAddr] ∧
      (k.OnTimeoutPacket st contractAddr packet).1.vmTrace
        = st.vmTrace ++ [EntryPoint.packetTimeout]) := by
  refine ⟨⟨?_, ?_⟩, ⟨?_, ?_⟩, ⟨?_, ?_⟩, ⟨?_, ?_⟩, ⟨?_, ?_⟩, ⟨?_, ?_⟩⟩ <;>
    (simp only [Keeper.OnOpenChannel, Keeper.OnConnectChannel,
       Keeper.OnCloseChannel, Keeper.OnRecvPacket, Keeper.OnAckPacket,
       Keeper.OnTimeoutPacket, Keeper.contractInstance, hres, Keeper.Dispatch];
     split <;> (try split) <;> simp [consumeGas, emitEvents, VMResult.gasUsed])

/-- Witness for C9: at the all-succeeding keeper the receive handler
records one resolution and one `packetReceive` VM call, and the open
handler records one `channelOpen` VM call. -/
theorem single_resolve_single_vm_call_witness :
    (kOk.OnRecvPacket stW "contractA" "pkt").1.resolveTrace = ["contractA"] ∧
    (kOk.OnRecvPacket stW "contractA" "pkt").1.vmTrace
      = [EntryPoint.packetReceive] ∧
    (kOk.OnOpenChannel stW "contractA" "chan").1.vmTrace
      = [EntryPoint.channelOpen] := by
  have h := single_resolve_single_vm_call kOk stW "contractA" "chan" "pkt"
    "ackd" ciW coW 0 rfl
  exact ⟨by simpa [stW] using h.2.2.2.1.1, by simpa [stW] using h.2.2.2.1.2,
    by simpa [stW] using h.1.2⟩

/-- Claim C10: whenever `OnRecvPacket` returns an error — resolution
failure, VM execution error, or dispatch failure — the acknowledgement it
returns is `nil`; in particular a VM-produced acknowledgement is discarded
when the subsequent dispatch fails. -/
theorem recv_error_returns_no_ack (k : Keeper) (st : HostState)
    (contractAddr : Addr) (packet : IBCPacket) (e : Error)
    (herr : (k.OnRecvPacket st contractAddr packet).2.2 = some e) :
    (k.OnRecvPacket st contractAddr packet).2.1 = none := by
  cases hres : k.resolve st contractAddr with
  | none => simp [Keeper.OnRecvPacket, Keeper.contractInstance, hres]
  | some r =>
    obtain ⟨ci, co, ps⟩ := r
    cases hout : recvVMCall k st contractAddr packet co ps with
    | err g msg => simp [Keeper.OnRecvPacket, Keeper.contractInstance, hres, hout]
    | ok res g =>
      simp only [Keeper.OnRecvPacket, Keeper.contractInstance, hres, hout,
        Keeper.Dispatch] at herr ⊢
      split at herr <;> simp_all

/-- Witness for C10 at a keeper whose VM succeeds with acknowledgement
`[1]` but whose dispatcher fails: the acknowledgement is discarded and the
dispatch error is returned. -/
theorem recv_error_returns_no_ack_witness :
    (kDispFail.OnRecvPacket stW "contractA" "pkt").2.1 = none ∧
    (kDispFail.OnRecvPacket stW "contractA" "pkt").2.2
      = some (Error.dispatchFailed "dispatch boom") ∧
    recvVMCall kDispFail stW "contractA" "pkt" coW 0 = .ok recvResW 0 := by
  refine ⟨recv_error_returns_no_ack kDispFail stW "contractA" "pkt"
    (Error.dispatchFailed "dispatch boom") rfl, rfl, rfl⟩

/-- Claim C8 counterexample: two failing handler calls that differ both in
contract address (`contractA` vs `contractB`) and in lifecycle event
(channel-open vs packet-ack) surface the very same error value
`Error.execFailed "boom"`, which therefore carries no annotation of the
offending contract address or of the handler's event kind. -/
theorem error_not_annotated_counterexample :
    (kErr.OnOpenChannel stW "contractA" "chan").2
      = (kErr.OnAckPacket stW "contractB" "ackd").2 ∧
    (kErr.OnOpenChannel stW "contractA" "chan").2
      = some (Error.execFailed "boom") := by
  constructor <;> rfl

/-- Claim C8 (amended): every handler returns a VM-reported execution
error wrapped as the single execution-failure kind carrying the underlying
VM message; the surfaced error value is the same for every handler and
contract address, with no further annotation. -/
theorem exec_error_wrapping (k : Keeper) (st : HostState)
    (contractAddr : Addr) (channel : IBCChannel) (packet : IBCPacket)
    (acknowledgement : IBCAcknowledgement)
    (ci : ContractInfo) (co : CodeInfo) (ps : PrefixStore)
    (g1 g2 g3 g4 g5 g6 : Nat) (m : String)
    (hres : k.resolve st contractAddr = some (ci, co, ps))
    (h1 : openVMCall k st contractAddr channel co ps = .err g1 m)
    (h2 : connectVMCall k st contractAddr channel co ps = .err g2 m)
    (h3 : closeVMCall k st contractAddr channel co ps = .err g3 m)
    (h4 : recvVMCall k st contractAddr packet co ps = .err g4 m)
    (h5 : ackVMCall k st contractAddr acknowledgement co ps = .err g5 m)
    (h6 : timeoutVMCall k st contractAddr packet co ps = .err g6 m) :
    (k.OnOpenChannel st contractAddr channel).2 = some (Error.execFailed m) ∧
    (k.OnConnectChannel st contractAddr channel).2 = some (Error.execFailed m) ∧
    (k.OnCloseChannel st contractAddr channel).2 = some (Error.execFailed m) ∧
    (k.OnRecvPacket st contractAddr packet).2.2 = some (Error.execFailed m) ∧
    (k.OnAckPacket st contractAddr acknowledgement).2
      = some (Error.execFailed m) ∧
    (k.OnTimeoutPacket st contractAddr packet).2
      = some (Error.execFailed m) := by
  refine ⟨?_, ?_, ?_, ?_, ?_, ?_⟩ <;>
    simp [Keeper.OnOpenChannel, Keeper.OnConnectChannel, Keeper.OnCloseChannel,
      Keeper.OnRecvPacket, Keeper.OnAckPacket, Keeper.OnTimeoutPacket,
      Keeper.contractInstance, hres, h1, h2, h3, h4, h5, h6, consumeGas,
      VMResult.gasUsed]

/-- Witness for the amended C8: the error keeper's timeout handler wraps
the VM message "boom" as an execution failure. -/
theorem exec_error_wrapping_witness :
    (kErr.OnTimeoutPacket stW "contractA" "pkt").2
      = some (Error.execFailed "boom") := by
  exact (exec_error_wrapping kErr stW "contractA" "chan" "pkt" "ackd"
    ciW coW 0 3 3 3 3 3 3 "boom" rfl rfl rfl rfl rfl rfl rfl).2.2.2.2.2

end Nyxd
